import Mathlib

/-
  Verification development for the logk logging library.

  The Go source is embedded shallowly:
  * `level.LogLevel` and its ordinal order (the `level` package is not in
    the provided sources; it is modelled from the spec: Fatal most severe,
    ordinal 0, through Trace, ordinal 5).
  * `logkOption.Options` with its setter functions and typed getters.
  * `StdLogger` with its twelve level methods, `NewChild` and `print`;
    instead of side-effecting on a printer, `print` returns the
    `PrintCall` it would emit (`none` when the level gate rejects).
  * `stdLogPrinter.Print` as a pure rendering function; `fmt.Sprintf`
    style formatting is modelled by `runFmt` (verbs `%v`, `%s`, `%%`,
    unknown verbs and the MISSING/EXTRA/NOVERB markers of Go's fmt).
  * the global registry (`Get` / `Register` / `Clear`) as explicit state
    passing over `RegistryState`; a `panic` is modelled as a returned
    message, leaving the state unchanged.
  * the unsynchronized lazy initialization of `Get` as a two-thread
    interleaving model (each thread: one atomic read of the slot, then -
    if it saw the empty slot - one atomic lock-protected write).
-/

/-- Log severity levels. Modelled from the spec: the `level` package is
not among the sources; the spec fixes the ordered enumeration
\x7bFatal, Error, Warn, Info, Debug, Trace\x7d with Fatal = ordinal 0 (most
severe, the integer type's zero value) through Trace = ordinal 5. -/
inductive LogLevel where
  | fatal
  | error
  | warn
  | info
  | debug
  | trace
deriving DecidableEq, Repr

/-- The underlying integer value of a `LogLevel` (Go compares levels with
`<`/`>` on this integer). -/
def LogLevel.ord : LogLevel → Nat
  | .fatal => 0
  | .error => 1
  | .warn => 2
  | .info => 3
  | .debug => 4
  | .trace => 5

/-- Modelled from the spec: `level.Parse` (the `level` package is not
among the sources): case-insensitive match against the six level names,
anything else (including the empty string) falls back to Info. -/
def LogLevel.Parse (s : String) : LogLevel :=
  match s.toUpper with
  | "FATAL" => .fatal
  | "ERROR" => .error
  | "WARN" => .warn
  | "INFO" => .info
  | "DEBUG" => .debug
  | "TRACE" => .trace
  | _ => .info

/-- An ambient context value. Modelled from the spec: the `context`
package is not among the sources; the only capability the core consumes
is stashing/retrieving a request identifier, so a context is modelled as
the request id it carries (empty string when it carries none). -/
structure Ctx where
  requestId : String
deriving DecidableEq, Repr

/-- Modelled from the spec: `logkContext.GetRequestId` returns the
request id carried by the context, or the empty string for a nil
context / a context carrying none. -/
def GetRequestId : Option Ctx → String
  | none => ""
  | some c => c.requestId

/-- A dynamically typed value stored in an `Options` value bag or passed
as a printf argument (Go `interface\x7b\x7d`): the concrete types the library's
typed getters distinguish. `err` carries the error's message (what Go's
`%s`/`%v` render for an error value). -/
inductive Value where
  | str (s : String)
  | int (i : Int)
  | time (t : Int)
  | err (msg : String)
deriving DecidableEq, Repr

/-- Rendering of a value under Go's `%v` verb. -/
def Value.render : Value → String
  | .str s => s
  | .int i => toString i
  | .time t => toString t
  | .err m => m

/-- The Go type name of the stored value, as printed inside fmt's
`%!verb(type=value)` and `%!(EXTRA type=value)` markers. -/
def Value.typeName : Value → String
  | .str _ => "string"
  | .int _ => "int64"
  | .time _ => "time.Time"
  | .err _ => "error"

/-- Rendering of a value under Go's `%s` verb: strings and errors render
as their text, any other type yields fmt's bad-verb marker. -/
def Value.renderS : Value → String
  | .str s => s
  | .err m => m
  | v => "%!s(" ++ v.typeName ++ "=" ++ v.render ++ ")"

/-- Whether the stored value's concrete type is string (what the Go type
assertion `.(string)` in `GetString` tests). -/
def Value.isStr : Value → Bool
  | .str _ => true
  | _ => false

/-- Whether the stored value's concrete type satisfies the error
interface (what the Go type assertion `.(error)` in `GetError` tests). -/
def Value.isErr : Value → Bool
  | .err _ => true
  | _ => false

/-- Modelled from the spec: reserved key under which `WithNamespace`
stores the namespace override in the options value bag (the `option`
package's setters are not among the sources; `GetString(o, NamespaceKey)`
is how `stdlogger.go` reads it back). -/
def NamespaceKey : String := "namespace"

/-- Modelled from the spec: reserved key under which the `Error` setter
stores a carried error in the options value bag. -/
def ErrorKey : String := "error"

/-- `logkOption.Options`: the configuration value object built by folding
setter functions over a zero value. `Values` is the generic string-to-any
map, kept as an association list where the most recent write is at the
head (so lookup finds the latest write, matching Go map overwrite). -/
structure Options where
  Level : LogLevel := .fatal
  Context : Option Ctx := none
  Metadata : List (String × Value) := []
  FmtArgs : List Value := []
  Values : List (String × Value) := []
deriving DecidableEq, Repr

/-- Lookup in the `Values` (or `Metadata`) association list: the most
recent write for a key wins. -/
def lookupVal (vs : List (String × Value)) (k : String) : Option Value :=
  match vs with
  | [] => none
  | (k2, v) :: rest => if k2 = k then some v else lookupVal rest k

/-- `logkOption.GetString` (src/unnamed/part_000): exact type check, no
conversion; `("", false)` unless the stored value is a string. -/
def GetString (o : Options) (k : String) : String × Bool :=
  match lookupVal o.Values k with
  | some (.str s) => (s, true)
  | _ => ("", false)

/-- `logkOption.GetInt64` (src/unnamed/part_000). -/
def GetInt64 (o : Options) (k : String) : Int × Bool :=
  match lookupVal o.Values k with
  | some (.int i) => (i, true)
  | _ => (0, false)

/-- `logkOption.GetTime` (src/unnamed/part_000). -/
def GetTime (o : Options) (k : String) : Int × Bool :=
  match lookupVal o.Values k with
  | some (.time t) => (t, true)
  | _ => (0, false)

/-- `logkOption.GetError` (src/unnamed/part_000): nil (`none`) unless the
stored value is an error. -/
def GetError (o : Options) (k : String) : Option String :=
  match lookupVal o.Values k with
  | some (.err e) => some e
  | _ => none

/-- Modelled from the spec: the provided setter functions of the `option`
package (not among the sources), deep-embedded: `Level`, `WithNamespace`,
`WithContext`, `WithMetadata`, `Error` and each one's effect on an
`Options` value. -/
inductive Setter where
  | level (l : LogLevel)
  | withNamespace (s : String)
  | withContext (c : Ctx)
  | withMetadata (m : List (String × Value))
  | error (msg : String)
deriving DecidableEq, Repr

/-- Effect of one setter on an `Options` value: scalar fields are
overwritten (later setters win), the mappings are written per key (the
newest entry is at the head, where `lookupVal` finds it first). -/
def Setter.apply : Setter → Options → Options
  | .level l, o => { o with Level := l }
  | .withNamespace s, o => { o with Values := (NamespaceKey, .str s) :: o.Values }
  | .withContext c, o => { o with Context := some c }
  | .withMetadata m, o => { o with Metadata := m ++ o.Metadata }
  | .error e, o => { o with Values := (ErrorKey, .err e) :: o.Values }

/-- Whether the setter is the `Level` setter. -/
def Setter.isLevel : Setter → Bool
  | .level _ => true
  | _ => false

/-- `logkOption.Evaluate`: allocate a zero `Options` and apply the
setters in the order given. -/
def Evaluate (args : List Setter) : Options :=
  args.foldl (fun o s => s.apply o) {}

/-- `logkOption.NewFormatOptions`: an `Options` carrying only the
positional printf arguments, used by the `*f` logging variants. -/
def NewFormatOptions (args : List Value) : Options :=
  { FmtArgs := args }

/-- One fmt verb: the token it emits and the arguments it leaves. Models
Go fmt's verb dispatch for the verbs the library and spec exercise
(`%%`, `%v`, `%s`) plus Go's generic bad-verb and missing-argument
markers for any other verb character. -/
def verbTok : Char → List Value → String × List Value
  | '%', args => ("%", args)
  | 'v', a :: args => (a.render, args)
  | 'v', [] => ("%!v(MISSING)", [])
  | 's', a :: args => (a.renderS, args)
  | 's', [] => ("%!s(MISSING)", [])
  | c, a :: args => ("%!" ++ c.toString ++ "(" ++ a.typeName ++ "=" ++ a.render ++ ")", args)
  | c, [] => ("%!" ++ c.toString ++ "(MISSING)", [])

/-- Core of fmt.Sprintf: scan the format, emit literal characters, and
dispatch verbs after each `%` (a trailing lone `%` emits Go's
`%!(NOVERB)`). Returns the rendered text and the unconsumed arguments. -/
def runFmt : List Char → List Value → String × List Value
  | [], args => ("", args)
  | c :: rest, args =>
    if c = '%' then
      match rest with
      | [] => ("%!(NOVERB)", args)
      | d :: rest2 =>
        let p := verbTok d args
        let q := runFmt rest2 p.2
        (p.1 ++ q.1, q.2)
    else
      let q := runFmt rest args
      (c.toString ++ q.1, q.2)

/-- Go fmt's trailer for unconsumed arguments:
`%!(EXTRA type=value, type=value, ...)`; empty when all were consumed. -/
def extraOf : List Value → String
  | [] => ""
  | args =>
      "%!(EXTRA " ++
        String.intercalate ", " (args.map (fun v => v.typeName ++ "=" ++ v.render)) ++ ")"

/-- fmt.Sprintf over the modelled value type. -/
def sprintf (f : String) (args : List Value) : String :=
  let p := runFmt f.data args
  p.1 ++ extraOf p.2

/-- A format list parses cleanly iff scanning never ends on a lone
trailing `%` (so appending further text cannot merge into a verb). -/
def fmtOk : List Char → Bool
  | [] => true
  | c :: rest =>
    if c = '%' then
      match rest with
      | [] => false
      | _ :: rest2 => fmtOk rest2
    else fmtOk rest

/-- `stdLevelPrefix` (stdlogger.go:16-23): the level tag map. A Go map
lookup at a missing key yields the zero string; the map is total here. -/
def stdLevelTag : LogLevel → String
  | .fatal => "[FATAL] > "
  | .error => "[ERROR] > "
  | .warn => "[WARN]  > "
  | .info => "[INFO]  > "
  | .debug => "[DEBUG] > "
  | .trace => "[TRACE] > "

/-- Modelled from the spec: JSON serialization of the metadata mapping
(Go's `encoding/json`, external to the repo). No claim depends on the
encoding; it is kept deterministic and total (serialization never fails
on the modelled value types). -/
def jsonValue : Value → String
  | .str s => "\"" ++ s ++ "\""
  | .int i => toString i
  | .time t => toString t
  | .err _ => "\x7b\x7d"

/-- Modelled from the spec: `json.Marshal` of the metadata mapping. -/
def jsonMarshal (m : List (String × Value)) : Option String :=
  some ("\x7b" ++
    String.intercalate "," (m.map (fun p => "\"" ++ p.1 ++ "\":" ++ jsonValue p.2)) ++ "\x7d")

/-- The record rendered by `stdLogPrinter.Print` (stdlogger.go:165-205),
kept structured: the message line plus the three optional detail lines,
in emission order. -/
structure Rendered where
  line1 : String
  reqIdLine : Option String
  errLine : Option String
  metaLine : Option String
deriving DecidableEq, Repr

/-- The full text written by one `Print` call: the lines concatenated in
order (the underlying log writer's own date/time decoration, external to
the repo, is not modelled). -/
def Rendered.flatten (r : Rendered) : String :=
  r.line1 ++ r.reqIdLine.getD "" ++ r.errLine.getD "" ++ r.metaLine.getD ""

/-- `stdLogPrinter.Print` (stdlogger.go:165-205) as a structured record:
level tag, `(namespace) ` when non-empty, the message printf-formatted
against `FmtArgs` when any are present (else printed literally through
`%s%s\n`), then the conditional request-id, error and metadata lines. -/
def stdPrintRecord (nspace : String) (lv : LogLevel) (msg : String) (options : Options) :
    Rendered :=
  let pfx0 := stdLevelTag lv
  let pfx := if nspace ≠ "" then pfx0 ++ "(" ++ nspace ++ ") " else pfx0
  let fmtArgs := options.FmtArgs
  let line1 :=
    if fmtArgs.length > 0 then sprintf (pfx ++ msg ++ "\n") fmtArgs
    else sprintf "%s%s\n" [.str pfx, .str msg]
  let reqId := GetRequestId options.Context
  let reqIdLine :=
    if reqId ≠ "" then some (sprintf "  > Request ID: %s\n" [.str reqId]) else none
  let errLine :=
    match GetError options ErrorKey with
    | some e =>
        if lv.ord ≤ LogLevel.error.ord then some (sprintf "  > Error: %s\n" [.err e])
        else none
    | none => none
  let metaLine :=
    if options.Metadata ≠ [] then
      match jsonMarshal options.Metadata with
      | some m => some (sprintf "  > Metadata: %s\n" [.str m])
      | none => none
    else none
  ⟨line1, reqIdLine, errLine, metaLine⟩

/-- `stdLogPrinter.Print`: the full text one call writes. -/
def stdLogPrinterPrint (nspace : String) (lv : LogLevel) (msg : String)
    (options : Options) : String :=
  (stdPrintRecord nspace lv msg options).flatten

/-- An opaque reference to a Printer implementation. Printing itself is
modelled separately (`StdLogger.print` returns the `PrintCall` it would
emit), so only the identity of the printer reference matters here. -/
def Printer : Type := Nat
deriving instance DecidableEq, Repr for Printer

/-- The default printer `NewStdLogPrinter(os.Stdout, stdLog.LstdFlags)`
used when the constructor receives a nil printer (stdlogger.go:140-144)
and by the registry bootstrap (src/unnamed/part_002:70). -/
def stdOutPrinter : Printer := (0 : Nat)

/-- `StdLogger` (stdlogger.go:25-30): threshold level, printer reference,
namespace and optional ambient context. (`namespace` is a Lean keyword,
so the field is named `nspace`.) -/
structure StdLogger where
  level : LogLevel
  printer : Printer
  nspace : String
  ctx : Option Ctx
deriving DecidableEq, Repr

/-- One invocation of `Printer.Print`, as `StdLogger.print` would issue
it: the arguments `(l.namespace, outLevel, msg, options)`. -/
structure PrintCall where
  nspace : String
  lv : LogLevel
  msg : String
  options : Options
deriving DecidableEq, Repr

/-- `StdLogger.print` (stdlogger.go:105-117): return immediately when the
output level's ordinal exceeds the threshold's (Go `outLevel > l.level`
on the level integers); otherwise inject the logger's context when the
options carry none, and invoke the printer. The printer invocation is
returned as a value; `none` means the printer is never invoked. -/
def StdLogger.print (l : StdLogger) (outLevel : LogLevel) (msg : String)
    (options : Options) : Option PrintCall :=
  if outLevel.ord > l.level.ord then none
  else
    let options :=
      if l.ctx.isSome ∧ options.Context = none then { options with Context := l.ctx }
      else options
    some ⟨l.nspace, outLevel, msg, options⟩

/-- `StdLogger.Fatal` (stdlogger.go:32-34). -/
def StdLogger.Fatal (l : StdLogger) (msg : String) (args : List Setter) : Option PrintCall :=
  l.print .fatal msg (Evaluate args)

/-- `StdLogger.Fatalf` (stdlogger.go:36-38). -/
def StdLogger.Fatalf (l : StdLogger) (format : String) (args : List Value) : Option PrintCall :=
  l.print .fatal format (NewFormatOptions args)

/-- `StdLogger.Error` (stdlogger.go:40-42). -/
def StdLogger.Error (l : StdLogger) (msg : String) (args : List Setter) : Option PrintCall :=
  l.print .error msg (Evaluate args)

/-- `StdLogger.Errorf` (stdlogger.go:44-46). -/
def StdLogger.Errorf (l : StdLogger) (format : String) (args : List Value) : Option PrintCall :=
  l.print .error format (NewFormatOptions args)

/-- `StdLogger.Warn` (stdlogger.go:48-50). -/
def StdLogger.Warn (l : StdLogger) (msg : String) (args : List Setter) : Option PrintCall :=
  l.print .warn msg (Evaluate args)

/-- `StdLogger.Warnf` (stdlogger.go:52-54). -/
def StdLogger.Warnf (l : StdLogger) (format : String) (args : List Value) : Option PrintCall :=
  l.print .warn format (NewFormatOptions args)

/-- `StdLogger.Info` (stdlogger.go:56-58). -/
def StdLogger.Info (l : StdLogger) (msg : String) (args : List Setter) : Option PrintCall :=
  l.print .info msg (Evaluate args)

/-- `StdLogger.Infof` (stdlogger.go:60-62). -/
def StdLogger.Infof (l : StdLogger) (format : String) (args : List Value) : Option PrintCall :=
  l.print .info format (NewFormatOptions args)

/-- `StdLogger.Debug` (stdlogger.go:64-66). -/
def StdLogger.Debug (l : StdLogger) (msg : String) (args : List Setter) : Option PrintCall :=
  l.print .debug msg (Evaluate args)

/-- `StdLogger.Debugf` (stdlogger.go:68-70). -/
def StdLogger.Debugf (l : StdLogger) (format : String) (args : List Value) : Option PrintCall :=
  l.print .debug format (NewFormatOptions args)

/-- `StdLogger.Trace` (stdlogger.go:72-74). -/
def StdLogger.Trace (l : StdLogger) (msg : String) (args : List Setter) : Option PrintCall :=
  l.print .trace msg (Evaluate args)

/-- `StdLogger.Tracef` (stdlogger.go:76-78). -/
def StdLogger.Tracef (l : StdLogger) (format : String) (args : List Value) : Option PrintCall :=
  l.print .trace format (NewFormatOptions args)

/-- `NewStdLogger` (stdlogger.go:119-147): evaluate the setters; take the
level from the evaluated options (zero value when no Level setter ran);
take the namespace from the options value bag when non-empty; take the
context when present; default a nil printer to the standard one. -/
def NewStdLogger (printer : Option Printer) (args : List Setter) : StdLogger :=
  let o := Evaluate args
  let ns := (GetString o NamespaceKey).1
  { level := o.Level
    printer := printer.getD stdOutPrinter
    nspace := if ns ≠ "" then ns else ""
    ctx := o.Context }

/-- `StdLogger.NewChild` (stdlogger.go:80-103): evaluate the setters; if
they carry no (or an empty) namespace override and the parent has one,
append a namespace setter for the parent's namespace; always append a
level setter for the parent's level; build the child with the parent's
printer via `NewStdLogger`; copy an explicitly passed context onto the
child. -/
def StdLogger.NewChild (l : StdLogger) (args : List Setter) : StdLogger :=
  let options := Evaluate args
  let ns := (GetString options NamespaceKey).1
  let args := if ns = "" ∧ l.nspace ≠ "" then args ++ [Setter.withNamespace l.nspace] else args
  let args := args ++ [Setter.level l.level]
  let cl := NewStdLogger (some l.printer) args
  match options.Context with
  | some c => { cl with ctx := some c }
  | none => cl

/-- A registered logger implementation: the repo's standard logger or any
other implementation of the `Logger` interface (identified opaquely). -/
inductive Logger where
  | std (l : StdLogger)
  | custom (id : Nat)
deriving DecidableEq, Repr

/-- Modelled from the spec: the package name constant used in the panic
message of `Register` (its defining file is not among the sources). -/
def pkgName : String := "logk"

/-- The process environment as the registry bootstrap reads it:
`os.LookupEnv` results for `LOG_LEVEL` and `LOG_NAMESPACE`
(src/unnamed/part_002:63-67; `none` models an unset variable, which
`LookupEnv`'s discarded second result turns into the empty string). -/
structure Env where
  logLevel : Option String
  logNamespace : Option String
deriving DecidableEq, Repr

/-- The global registry slot `var log Logger` (src/unnamed/part_002:55),
threaded explicitly. -/
structure RegistryState where
  log : Option Logger
deriving DecidableEq, Repr

/-- `Register` (src/unnamed/part_002:87-97): panic (returned as the first
component, with the state unchanged) when the argument is nil; otherwise
replace the slot under the write lock. -/
def Register (l : Option Logger) (s : RegistryState) : Option String × RegistryState :=
  match l with
  | none => (some (pkgName ++ ": logger to be registered is nil"), s)
  | some l => (none, ⟨some l⟩)

/-- `Clear` (src/unnamed/part_002:100-105): reset the slot to empty under
the write lock. -/
def Clear (_s : RegistryState) : RegistryState := ⟨none⟩

/-- The standard logger `Get` synthesizes on an empty slot
(src/unnamed/part_002:62-71): level parsed from `LOG_LEVEL`, namespace
from `LOG_NAMESPACE`, standard stdout printer. -/
def defaultEnvLogger (env : Env) : Logger :=
  Logger.std (NewStdLogger (some stdOutPrinter)
    [Setter.level (LogLevel.Parse (env.logLevel.getD "")),
     Setter.withNamespace (env.logNamespace.getD "")])

/-- `Get` (src/unnamed/part_002:59-78): return the registered logger; on
an empty slot synthesize the default logger from the environment,
register it, and return it (the bootstrap Trace message only prints,
affecting no state modelled here). -/
def Get (env : Env) (s : RegistryState) : Logger × RegistryState :=
  match s.log with
  | some l => (l, s)
  | none =>
    let l := defaultEnvLogger env
    (l, (Register (some l) s).2)

/-- Program counter of one thread executing `Get` on an empty registry,
split at its atomic actions (src/unnamed/part_002:61 is the
unsynchronized nil check; part_002:94-96 is the lock-protected slot
write): `start` = about to read the slot, `toInit` = saw an empty slot
and will synthesize + register a bootstrap logger, `done` = returned. -/
inductive Pc where
  | start
  | toInit
  | done
deriving DecidableEq, Repr

/-- State of the two-thread interleaving of `Get`: the slot (holding the
id of the thread whose bootstrap logger was registered last), each
thread's program counter, and whether each thread created (synthesized
and registered) a bootstrap logger. -/
structure Sys where
  slot : Option Nat
  pc0 : Pc
  pc1 : Pc
  created0 : Bool
  created1 : Bool
deriving DecidableEq, Repr

/-- Initial state: empty slot, both threads about to run `Get`, no
bootstrap logger created. -/
def initSys : Sys :=
  ⟨none, .start, .start, false, false⟩

/-- One atomic action of thread 0 (`false`) or thread 1 (`true`): at
`start`, the unsynchronized nil check of `Get` (no lock is held, so other
threads may act between this read and the write); at `toInit`, the
synthesis and lock-protected `Register` write, atomic because the lock is
held for the write. A finished thread does nothing. -/
def stepSys (t : Bool) (s : Sys) : Sys :=
  match t with
  | false =>
    match s.pc0 with
    | .start => if s.slot = none then { s with pc0 := .toInit } else { s with pc0 := .done }
    | .toInit => { s with slot := some 0, created0 := true, pc0 := .done }
    | .done => s
  | true =>
    match s.pc1 with
    | .start => if s.slot = none then { s with pc1 := .toInit } else { s with pc1 := .done }
    | .toInit => { s with slot := some 1, created1 := true, pc1 := .done }
    | .done => s

/-- Run a schedule: at each entry the named thread performs its next
atomic action. -/
def runSys (sched : List Bool) (s : Sys) : Sys :=
  sched.foldl (fun s t => stepSys t s) s

/-- How many bootstrap loggers were created in a run. -/
def createdCount (s : Sys) : Nat :=
  (if s.created0 then 1 else 0) + (if s.created1 then 1 else 0)

theorem runFmt_cons_verb (d : Char) (rest2 : List Char) (args : List Value) :
    runFmt ('%' :: d :: rest2) args =
      ((verbTok d args).1 ++ (runFmt rest2 (verbTok d args).2).1,
       (runFmt rest2 (verbTok d args).2).2) := by
  rw [runFmt.eq_def]
  simp

theorem runFmt_cons_lit (c : Char) (rest : List Char) (args : List Value) (hc : c ≠ '%') :
    runFmt (c :: rest) args = (c.toString ++ (runFmt rest args).1, (runFmt rest args).2) := by
  rw [runFmt.eq_def]
  simp [if_neg hc]

theorem runFmt_append (f g : List Char) (args : List Value) (h : fmtOk f = true) :
    runFmt (f ++ g) args =
      ((runFmt f args).1 ++ (runFmt g (runFmt f args).2).1,
       (runFmt g (runFmt f args).2).2) := by
  induction f, args using runFmt.induct with
  | case1 args => simp [runFmt, String.empty_append]
  | case2 args =>
      rw [fmtOk.eq_def] at h
      simp at h
  | case3 args d rest2 pp ih =>
      have h2 : fmtOk rest2 = true := by
        rw [fmtOk.eq_def] at h
        simpa using h
      rw [List.cons_append, List.cons_append, runFmt_cons_verb, runFmt_cons_verb, ih h2,
        String.append_assoc]
  | case4 c rest args hc ih =>
      have h2 : fmtOk rest = true := by
        rw [fmtOk.eq_def] at h
        simpa [if_neg hc] using h
      rw [List.cons_append, runFmt_cons_lit _ _ _ hc, runFmt_cons_lit _ _ _ hc, ih h2,
        String.append_assoc]

theorem runFmt_nopercent (p g : List Char) (args : List Value) (h : ∀ c ∈ p, c ≠ '%') :
    runFmt (p ++ g) args = (String.mk p ++ (runFmt g args).1, (runFmt g args).2) := by
  induction p with
  | nil =>
      have hmk : String.mk [] = "" := rfl
      simp [hmk, String.empty_append]
  | cons c t ih =>
      have hc : c ≠ '%' := h c (by simp)
      have ht : ∀ x ∈ t, x ≠ '%' := fun x hx => h x (by simp [hx])
      rw [List.cons_append, runFmt_cons_lit _ _ _ hc, ih ht]
      have hmk : c.toString ++ String.mk t = String.mk (c :: t) := rfl
      rw [← hmk, String.append_assoc]

theorem sprintf_ss (a b : String) : sprintf "%s%s\n" [.str a, .str b] = a ++ b ++ "\n" := by
  have hdata : ("%s%s\n").data = ['%', 's', '%', 's', '\n'] := rfl
  have hn : ('\n').toString = "\n" := rfl
  simp [sprintf, hdata, runFmt, verbTok, Value.renderS, extraOf, hn, String.append_assoc,
    String.append_empty]

theorem extraOf_nil : extraOf [] = "" := rfl

theorem sprintf_pfx (p f : String) (args : List Value)
    (hp : ∀ c ∈ p.data, c ≠ '%') (hok : fmtOk f.data = true)
    (hcons : (runFmt f.data args).2 = []) :
    sprintf (p ++ f ++ "\n") args = p ++ sprintf f args ++ "\n" := by
  have hdata : (p ++ f ++ "\n").data = p.data ++ (f.data ++ ['\n']) := by
    have hn : ("\n").data = ['\n'] := rfl
    simp [String.data_append, hn]
  have hnl : runFmt ['\n'] [] = ("\n", []) := rfl
  have hmk : String.mk p.data = p := rfl
  have hrun : runFmt (p.data ++ (f.data ++ ['\n'])) args =
      (p ++ ((runFmt f.data args).1 ++ "\n"), []) := by
    rw [runFmt_nopercent _ _ _ hp]
    rw [runFmt_append _ _ _ hok]
    rw [hcons, hnl]
  simp [sprintf, hdata, hrun, hcons, extraOf_nil, String.append_assoc, String.append_empty]

theorem print_isSome (l : StdLogger) (lv : LogLevel) (msg : String) (o : Options) :
    (l.print lv msg o).isSome = true ↔ lv.ord ≤ l.level.ord := by
  unfold StdLogger.print
  split
  · rename_i h
    simp
    omega
  · rename_i h
    simp
    omega

theorem Evaluate_append_level (xs : List Setter) (L : LogLevel) :
    (Evaluate (xs ++ [Setter.level L])).Level = L := by
  simp [Evaluate, List.foldl_append, Setter.apply]

theorem Evaluate_append_level_Values (xs : List Setter) (L : LogLevel) :
    (Evaluate (xs ++ [Setter.level L])).Values = (Evaluate xs).Values := by
  simp [Evaluate, List.foldl_append, Setter.apply]

theorem Evaluate_append_ns_level (xs : List Setter) (s : String) (L : LogLevel) :
    (GetString (Evaluate (xs ++ [Setter.withNamespace s, Setter.level L]))
      NamespaceKey).1 = s := by
  simp [Evaluate, List.foldl_append, Setter.apply, GetString, lookupVal]

theorem NewChild_nspace (l : StdLogger) (args : List Setter) :
    (l.NewChild args).nspace =
      (if (GetString (Evaluate args) NamespaceKey).1 = "" ∧ l.nspace ≠ ""
       then l.nspace else (GetString (Evaluate args) NamespaceKey).1) := by
  by_cases h : (GetString (Evaluate args) NamespaceKey).1 = "" ∧ l.nspace ≠ ""
  · simp only [StdLogger.NewChild, if_pos h]
    cases hC : (Evaluate args).Context <;>
      simp [NewStdLogger, Evaluate_append_ns_level, h.2, if_pos h]
  · simp only [StdLogger.NewChild, if_neg h]
    cases hC : (Evaluate args).Context <;>
      simp [NewStdLogger, Evaluate_append_level_Values, GetString, if_neg h] <;>
      split <;> simp_all

theorem NewChild_level (l : StdLogger) (args : List Setter) :
    (l.NewChild args).level = l.level := by
  simp only [StdLogger.NewChild]
  cases hC : (Evaluate args).Context <;> split <;>
    simp [NewStdLogger, Evaluate_append_level, hC]

/-- C1: for every logger with threshold `T`, each of the twelve per-level
log methods at level `L` invokes the printer exactly when
`ordinal(L) ≤ ordinal(T)` (Fatal = 0, most severe); otherwise the call
returns `none` and no `PrintCall` is produced. -/
theorem C1_level_gate (l : StdLogger) (msg : String) (sargs : List Setter)
    (fargs : List Value) :
    ((l.Fatal msg sargs).isSome = true ↔ LogLevel.fatal.ord ≤ l.level.ord) ∧
    ((l.Fatalf msg fargs).isSome = true ↔ LogLevel.fatal.ord ≤ l.level.ord) ∧
    ((l.Error msg sargs).isSome = true ↔ LogLevel.error.ord ≤ l.level.ord) ∧
    ((l.Errorf msg fargs).isSome = true ↔ LogLevel.error.ord ≤ l.level.ord) ∧
    ((l.Warn msg sargs).isSome = true ↔ LogLevel.warn.ord ≤ l.level.ord) ∧
    ((l.Warnf msg fargs).isSome = true ↔ LogLevel.warn.ord ≤ l.level.ord) ∧
    ((l.Info msg sargs).isSome = true ↔ LogLevel.info.ord ≤ l.level.ord) ∧
    ((l.Infof msg fargs).isSome = true ↔ LogLevel.info.ord ≤ l.level.ord) ∧
    ((l.Debug msg sargs).isSome = true ↔ LogLevel.debug.ord ≤ l.level.ord) ∧
    ((l.Debugf msg fargs).isSome = true ↔ LogLevel.debug.ord ≤ l.level.ord) ∧
    ((l.Trace msg sargs).isSome = true ↔ LogLevel.trace.ord ≤ l.level.ord) ∧
    ((l.Tracef msg fargs).isSome = true ↔ LogLevel.trace.ord ≤ l.level.ord) :=
  ⟨print_isSome l .fatal msg (Evaluate sargs),
   print_isSome l .fatal msg (NewFormatOptions fargs),
   print_isSome l .error msg (Evaluate sargs),
   print_isSome l .error msg (NewFormatOptions fargs),
   print_isSome l .warn msg (Evaluate sargs),
   print_isSome l .warn msg (NewFormatOptions fargs),
   print_isSome l .info msg (Evaluate sargs),
   print_isSome l .info msg (NewFormatOptions fargs),
   print_isSome l .debug msg (Evaluate sargs),
   print_isSome l .debug msg (NewFormatOptions fargs),
   print_isSome l .trace msg (Evaluate sargs),
   print_isSome l .trace msg (NewFormatOptions fargs)⟩

/-- C3: a child created with no namespace override (the evaluated setters
yield the empty string for the namespace key) inherits a non-empty parent
namespace; an explicit non-empty override replaces it; and the
inheritance carries on to grandchildren. -/
theorem C3_child_namespace (l : StdLogger) (args args2 : List Setter) (ns : String) :
    ((GetString (Evaluate args) NamespaceKey).1 = "" → l.nspace ≠ "" →
        (l.NewChild args).nspace = l.nspace) ∧
    ((GetString (Evaluate args) NamespaceKey).1 = ns → ns ≠ "" →
        (l.NewChild args).nspace = ns) ∧
    ((GetString (Evaluate args2) NamespaceKey).1 = "" → (l.NewChild args).nspace ≠ "" →
        ((l.NewChild args).NewChild args2).nspace = (l.NewChild args).nspace) := by
  refine ⟨fun h1 h2 => ?_, fun h1 h2 => ?_, fun h1 h2 => ?_⟩
  · rw [NewChild_nspace, if_pos ⟨h1, h2⟩]
  · rw [NewChild_nspace, h1, if_neg (fun hc => h2 hc.1)]
  · rw [NewChild_nspace (l.NewChild args) args2, if_pos ⟨h1, h2⟩]

/-- C3 witness: parent namespace "api"; a child with no setters inherits
"api"; a child created with namespace "users" gets "users". -/
theorem C3_child_namespace_witness :
    ((GetString (Evaluate ([] : List Setter)) NamespaceKey).1 = "" ∧
      ("api" : String) ≠ "" ∧
      (GetString (Evaluate [Setter.withNamespace "users"]) NamespaceKey).1 = "users" ∧
      ("users" : String) ≠ "") ∧
    ((⟨.debug, stdOutPrinter, "api", none⟩ : StdLogger).NewChild []).nspace = "api" ∧
    ((⟨.debug, stdOutPrinter, "api", none⟩ : StdLogger).NewChild
        [Setter.withNamespace "users"]).nspace = "users" :=
  ⟨⟨by decide, by decide, by decide, by decide⟩,
   (C3_child_namespace ⟨.debug, stdOutPrinter, "api", none⟩ [] [] "").1
     (by decide) (by decide),
   (C3_child_namespace ⟨.debug, stdOutPrinter, "api", none⟩ [Setter.withNamespace "users"]
     [] "users").2.1 (by decide) (by decide)⟩

/-- C4: `NewChild` always re-applies the parent's level as the last
setter, so the child's threshold equals the parent's for every setter
list, including lists containing a `Level` setter. -/
theorem C4_child_level (l : StdLogger) (args : List Setter) :
    (l.NewChild args).level = l.level :=
  NewChild_level l args

theorem Evaluate_Level_nolevel (args : List Setter) (o : Options)
    (h : ∀ s ∈ args, s.isLevel = false) :
    (args.foldl (fun o s => s.apply o) o).Level = o.Level := by
  induction args generalizing o with
  | nil => rfl
  | cons a t ih =>
      have ha : a.isLevel = false := h a (by simp)
      have ht : ∀ s ∈ t, s.isLevel = false := fun s hs => h s (by simp [hs])
      rw [List.foldl_cons, ih _ ht]
      cases a with
      | level L => simp [Setter.isLevel] at ha
      | withNamespace s => simp [Setter.apply]
      | withContext c => simp [Setter.apply]
      | withMetadata m => simp [Setter.apply]
      | error e => simp [Setter.apply]

/-- C10: a logger built by `NewStdLogger` from setters containing no
`Level` setter keeps the zero-value threshold (ordinal 0, Fatal), so
Error, Warn, Info, Debug and Trace calls (plain and formatted) never
produce a printer invocation, while Fatal-level calls do. -/
theorem C10_default_level_fatal (p : Option Printer) (args : List Setter)
    (msg : String) (sargs : List Setter) (fargs : List Value)
    (h : ∀ s ∈ args, s.isLevel = false) :
    (NewStdLogger p args).level = LogLevel.fatal ∧
    (NewStdLogger p args).Error msg sargs = none ∧
    (NewStdLogger p args).Errorf msg fargs = none ∧
    (NewStdLogger p args).Warn msg sargs = none ∧
    (NewStdLogger p args).Warnf msg fargs = none ∧
    (NewStdLogger p args).Info msg sargs = none ∧
    (NewStdLogger p args).Infof msg fargs = none ∧
    (NewStdLogger p args).Debug msg sargs = none ∧
    (NewStdLogger p args).Debugf msg fargs = none ∧
    (NewStdLogger p args).Trace msg sargs = none ∧
    (NewStdLogger p args).Tracef msg fargs = none ∧
    ((NewStdLogger p args).Fatal msg sargs).isSome = true ∧
    ((NewStdLogger p args).Fatalf msg fargs).isSome = true := by
  have hl : (NewStdLogger p args).level = LogLevel.fatal := by
    simp [NewStdLogger, Evaluate, Evaluate_Level_nolevel args _ h]
  refine ⟨hl, ?_, ?_, ?_, ?_, ?_, ?_, ?_, ?_, ?_, ?_, ?_, ?_⟩ <;>
    simp [StdLogger.Error, StdLogger.Errorf, StdLogger.Warn, StdLogger.Warnf,
      StdLogger.Info, StdLogger.Infof, StdLogger.Debug, StdLogger.Debugf,
      StdLogger.Trace, StdLogger.Tracef, StdLogger.Fatal, StdLogger.Fatalf,
      StdLogger.print, hl, LogLevel.ord]

/-- C10 witness: a logger built with only a namespace setter (no Level
setter) has threshold Fatal, suppresses all less-severe calls and passes
Fatal-level calls. -/
theorem C10_default_level_fatal_witness :
    (∀ s ∈ [Setter.withNamespace "x"], s.isLevel = false) ∧
    ((NewStdLogger none [Setter.withNamespace "x"]).level = LogLevel.fatal ∧
     (NewStdLogger none [Setter.withNamespace "x"]).Error "m" [] = none ∧
     (NewStdLogger none [Setter.withNamespace "x"]).Errorf "m" [] = none ∧
     (NewStdLogger none [Setter.withNamespace "x"]).Warn "m" [] = none ∧
     (NewStdLogger none [Setter.withNamespace "x"]).Warnf "m" [] = none ∧
     (NewStdLogger none [Setter.withNamespace "x"]).Info "m" [] = none ∧
     (NewStdLogger none [Setter.withNamespace "x"]).Infof "m" [] = none ∧
     (NewStdLogger none [Setter.withNamespace "x"]).Debug "m" [] = none ∧
     (NewStdLogger none [Setter.withNamespace "x"]).Debugf "m" [] = none ∧
     (NewStdLogger none [Setter.withNamespace "x"]).Trace "m" [] = none ∧
     (NewStdLogger none [Setter.withNamespace "x"]).Tracef "m" [] = none ∧
     ((NewStdLogger none [Setter.withNamespace "x"]).Fatal "m" []).isSome = true ∧
     ((NewStdLogger none [Setter.withNamespace "x"]).Fatalf "m" []).isSome = true) :=
  ⟨by decide, C10_default_level_fatal none [Setter.withNamespace "x"] "m" [] [] (by decide)⟩

/-- C5: after `Register l` the next `Get` returns exactly `l` with the
state unchanged; after `Clear` the next `Get` returns the freshly
synthesized standard logger configured from the `LOG_LEVEL` and
`LOG_NAMESPACE` environment values, and registers it. -/
theorem C5_registry_get (l : Logger) (s : RegistryState) (env : Env) :
    Get env (Register (some l) s).2 = (l, (Register (some l) s).2) ∧
    Get env (Clear s) = (defaultEnvLogger env, ⟨some (defaultEnvLogger env)⟩) := by
  constructor
  · simp [Get, Register]
  · simp [Get, Clear, Register]

/-- C6: `Register` aborts (returns the panic message, leaving the slot
unchanged) precisely on the nil logger, and for every non-nil logger it
instead replaces the slot and returns no panic. -/
theorem C6_register_nil_panics (l : Logger) (s : RegistryState) :
    Register none s = (some (pkgName ++ ": logger to be registered is nil"), s) ∧
    Register (some l) s = (none, ⟨some l⟩) :=
  ⟨rfl, rfl⟩

/-- C7: the standard printer emits the error line iff a non-nil error
value is stored under the error key and the record's level ordinal is at
most Error's; in particular an Info record never carries the error
line. -/
theorem C7_error_line (nspace : String) (lv : LogLevel) (msg : String) (o : Options) :
    ((stdPrintRecord nspace lv msg o).errLine.isSome = true ↔
      (GetError o ErrorKey ≠ none ∧ lv.ord ≤ LogLevel.error.ord)) ∧
    (stdPrintRecord nspace LogLevel.info msg o).errLine = none := by
  constructor
  · simp only [stdPrintRecord]
    cases hE : GetError o ErrorKey with
    | none => simp [hE]
    | some e =>
        by_cases hlv : lv.ord ≤ LogLevel.error.ord <;> simp [hE, hlv]
  · simp only [stdPrintRecord]
    cases hE : GetError o ErrorKey with
    | none => simp [hE]
    | some e => simp [hE, LogLevel.ord]

/-- C8: the typed getters check the stored value's concrete type exactly
and never convert: for every stored value whose concrete type is not
string (int64, time.Time or error alike), `GetString` yields
`("", false)`; for every stored value that is not an error, `GetError`
yields nil; and on an int64-typed value `GetInt64` returns it. -/
theorem C8_typed_getters (o : Options) (k : String) (v : Value)
    (h : lookupVal o.Values k = some v) :
    (v.isStr = false → GetString o k = ("", false)) ∧
    (v.isErr = false → GetError o k = none) ∧
    (∀ i : Int, v = Value.int i → GetInt64 o k = (i, true)) := by
  cases v <;>
    simp [GetString, GetError, GetInt64, Value.isStr, Value.isErr, h]

/-- C8 witness: an options bag storing an int64 under "age": not a
string, not an error, so `GetString` finds nothing, `GetError` is nil,
and `GetInt64` returns the value. -/
theorem C8_typed_getters_witness :
    (lookupVal (Options.mk .fatal none [] [] [("age", Value.int 7)]).Values "age" =
        some (Value.int 7) ∧
     (Value.int 7).isStr = false ∧
     (Value.int 7).isErr = false) ∧
    (GetString (Options.mk .fatal none [] [] [("age", Value.int 7)]) "age" = ("", false) ∧
     GetError (Options.mk .fatal none [] [] [("age", Value.int 7)]) "age" = none ∧
     GetInt64 (Options.mk .fatal none [] [] [("age", Value.int 7)]) "age" = (7, true)) :=
  ⟨⟨by decide, by decide, by decide⟩,
   (C8_typed_getters (Options.mk .fatal none [] [] [("age", Value.int 7)]) "age"
      (Value.int 7) (by decide)).1 (by decide),
   (C8_typed_getters (Options.mk .fatal none [] [] [("age", Value.int 7)]) "age"
      (Value.int 7) (by decide)).2.1 (by decide),
   (C8_typed_getters (Options.mk .fatal none [] [] [("age", Value.int 7)]) "age"
      (Value.int 7) (by decide)).2.2 7 rfl⟩

/-- C9 counterexample: under the schedule where both threads pass the
unsynchronized nil check of `Get` before either registers (thread 0
checks, thread 1 checks, thread 0 initializes, thread 1 initializes),
two bootstrap loggers are created — the lazy initialization is not
protected by the lock at the slot read, refuting "no two bootstrap
loggers are ever created". -/
theorem C9_interleaving_cex :
    ¬ (createdCount (runSys [false, true, false, true] initSys) ≤ 1) := by decide

/-- C9 amended: each slot write is individually atomic (lock-held) and
the last writer wins, so any non-interleaved pair of `Get` calls creates
exactly one bootstrap logger; but the nil check is outside the lock, so
the interleaved schedule creates two, the later registration surviving. -/
theorem C9_registration_atomicity :
    createdCount (runSys [false, false, true, true] initSys) = 1 ∧
    (runSys [false, false, true, true] initSys).slot = some 0 ∧
    createdCount (runSys [true, true, false, false] initSys) = 1 ∧
    (runSys [true, true, false, false] initSys).slot = some 1 ∧
    createdCount (runSys [false, true, false, true] initSys) = 2 ∧
    (runSys [false, true, false, true] initSys).slot = some 1 := by decide

/-- The full text the standard printer writes for one `PrintCall`. -/
def renderCall (c : PrintCall) : String :=
  stdLogPrinterPrint c.nspace c.lv c.msg c.options

theorem tag_nopercent (lv : LogLevel) : ∀ c ∈ (stdLevelTag lv).data, c ≠ '%' := by
  cases lv <;> decide

theorem pfx_nopercent (nspace : String) (lv : LogLevel)
    (hns : ∀ c ∈ nspace.data, c ≠ '%') :
    ∀ c ∈ (if nspace = "" then stdLevelTag lv
           else stdLevelTag lv ++ "(" ++ nspace ++ ") ").data, c ≠ '%' := by
  have hop : ("(").data = ['('] := rfl
  have hcl : (") ").data = [')', ' '] := rfl
  split
  · exact tag_nopercent lv
  · intro c hc
    simp only [String.data_append, hop, hcl, List.mem_append, List.mem_cons,
      List.not_mem_nil, or_false] at hc
    rcases hc with ((h | h) | h) | (h | h)
    · exact tag_nopercent lv c h
    · subst h; decide
    · exact hns c h
    · subst h; decide
    · subst h; decide

theorem stdPrint_fmt_eq (nspace : String) (lv : LogLevel) (f : String)
    (args : List Value) (ctx : Option Ctx)
    (hargs : args ≠ []) (hns : ∀ c ∈ nspace.data, c ≠ '%')
    (hok : fmtOk f.data = true) (hcons : (runFmt f.data args).2 = []) :
    stdLogPrinterPrint nspace lv f { FmtArgs := args, Context := ctx } =
      stdLogPrinterPrint nspace lv (sprintf f args) { Context := ctx } := by
  have hlen : 0 < args.length := List.length_pos.mpr hargs
  have hp := pfx_nopercent nspace lv hns
  unfold stdLogPrinterPrint stdPrintRecord Rendered.flatten
  simp [hlen, sprintf_pfx _ f args hp hok hcons, sprintf_ss, GetError, lookupVal]

/-- C2 counterexample: with namespace "%v" (a namespace containing a
format verb), threshold Trace, `Errorf "x" ["a"]` renders
"[ERROR] > (a) x\n" (the argument is consumed by the verb inside the
prefixed namespace), while printing the interpolated message
`sprintf "x" ["a"] = "x%!(EXTRA string=a)"` directly renders
"[ERROR] > (%v) x%!(EXTRA string=a)\n" — the two texts differ, so the
equivalence does not hold for every namespace and argument list. -/
theorem C2_formatted_cex :
    ¬ ((StdLogger.Errorf ⟨.trace, stdOutPrinter, "%v", none⟩ "x" [.str "a"]).map
        renderCall =
      some (stdLogPrinterPrint "%v" .error (sprintf "x" [.str "a"])
        { Context := none })) := by decide

/-- C2 amended: for every gate-passing formatted call whose namespace
contains no '%', whose format has no dangling '%', and whose arguments
are exactly consumed by the format (and at least one argument is given,
else the formatted path is not taken), the rendered text equals the
standard printer called directly with the printf-interpolated message. -/
theorem C2_formatted_equiv (l : StdLogger) (lv : LogLevel) (f : String)
    (args : List Value)
    (hgate : lv.ord ≤ l.level.ord) (hargs : args ≠ [])
    (hns : ∀ c ∈ l.nspace.data, c ≠ '%')
    (hok : fmtOk f.data = true)
    (hcons : (runFmt f.data args).2 = []) :
    (l.print lv f (NewFormatOptions args)).map renderCall =
      some (stdLogPrinterPrint l.nspace lv (sprintf f args) { Context := l.ctx }) := by
  have hprint : l.print lv f (NewFormatOptions args) =
      some ⟨l.nspace, lv, f, { FmtArgs := args, Context := l.ctx }⟩ := by
    unfold StdLogger.print
    rw [if_neg (by omega)]
    cases hc : l.ctx <;> simp [NewFormatOptions, hc]
  rw [hprint]
  simp only [Option.map_some']
  rw [renderCall]
  exact congrArg some (stdPrint_fmt_eq l.nspace lv f args l.ctx hargs hns hok hcons)

/-- C2 witness: namespace "api", threshold Trace, level Error, format
"n=%v" with one argument; both sides render "[ERROR] > (api) n=3\n". -/
theorem C2_formatted_equiv_witness :
    (LogLevel.error.ord ≤ LogLevel.trace.ord ∧
     ([Value.int 3] : List Value) ≠ [] ∧
     (∀ c ∈ ("api" : String).data, c ≠ '%') ∧
     fmtOk ("n=%v" : String).data = true ∧
     (runFmt ("n=%v" : String).data [Value.int 3]).2 = []) ∧
    ((StdLogger.mk .trace stdOutPrinter "api" none).print .error "n=%v"
        (NewFormatOptions [Value.int 3])).map renderCall =
      some (stdLogPrinterPrint "api" .error (sprintf "n=%v" [Value.int 3])
        { Context := none }) :=
  ⟨⟨by decide, by decide, by decide, by decide, by decide⟩,
   C2_formatted_equiv ⟨.trace, stdOutPrinter, "api", none⟩ .error "n=%v" [Value.int 3]
     (by decide) (by decide) (by decide) (by decide) (by decide)⟩
